import Mathlib

/-!
Verification of the Trading Limits & Risk-Gate subsystem and the Order
Lifecycle / Price Alert services of the PolyMarketClawBot repository
(`app/services/advanced.py`, `app/services/order_service.py`,
`app/models/orders.py`).

Monetary amounts (Python floats) are embedded as rationals; the claims under
study are about control flow, comparisons and exact-cent values, not about
binary floating-point rounding.  `datetime.utcnow()` is embedded as an
explicit `today : String` parameter (the `"%Y-%m-%d"` key), and every external
collaborator call (Mongo aggregation, Polymarket client) as an explicit
input of `Except`/reply type, so that the Python `try/except` structure
becomes a `match` on that input.
-/

namespace PolyClaw

/-- Two-decimal dollar formatting, the embedding of Python `f"{x:.2f}"`.
For values that are an exact number of cents (all values appearing in the
spec scenarios) this agrees with Python exactly, including the leading `-`
that Python prints for negative values. -/
def fmt2 (q : ℚ) : String :=
  let c : ℤ := round (q * 100)
  let sgn := if c < 0 then "-" else ""
  let n := c.natAbs
  let whole := n / 100
  let cents := n % 100
  sgn ++ toString whole ++ "." ++ (if cents < 10 then "0" else "") ++ toString cents

/-- The `TradeLimit` dataclass of `app/services/advanced.py`.
`max_position_usd : Optional[float] = None` and
`max_daily_trades : Optional[int] = None` become `Option`s. -/
structure TradeLimit where
  max_trade_usd : ℚ
  max_daily_usd : ℚ
  max_position_usd : Option ℚ
  max_daily_trades : Option ℕ
deriving DecidableEq

/-- The `DailyStats` dataclass of `app/services/advanced.py`. -/
structure DailyStats where
  date : String
  total_trades : ℕ
  total_volume_usd : ℚ
  buy_volume_usd : ℚ
  sell_volume_usd : ℚ
  realized_pnl : ℚ
  trade_ids : List String
deriving DecidableEq

/-- The all-default `DailyStats(date=today)` constructor call. -/
def zeroStats (today : String) : DailyStats :=
  { date := today, total_trades := 0, total_volume_usd := 0,
    buy_volume_usd := 0, sell_volume_usd := 0, realized_pnl := 0,
    trade_ids := [] }

/-- One row of the Mongo `$group` aggregation result in `get_daily_stats`. -/
structure AggRow where
  total_trades : ℕ
  total_volume : ℚ
  buy_volume : ℚ
  sell_volume : ℚ
  realized_pnl : ℚ
deriving DecidableEq

/-- Outcome of `trades_collection.aggregate(pipeline)`: either the list of
group rows, or a raised exception (caught by the service). -/
inductive LedgerReply where
  | rows : List AggRow → LedgerReply
  | err : String → LedgerReply
deriving DecidableEq

/-- The mutable `_today_stats` cache slot of `TradingLimitsService`. -/
structure LimitsState where
  today_stats : Option DailyStats
deriving DecidableEq

/-- Result of one `get_daily_stats` call: the returned stats, the new value
of the `_today_stats` cache, and whether the ledger was queried at all. -/
structure StatsOutcome where
  stats : DailyStats
  state : LimitsState
  queried : Bool
deriving DecidableEq

/-- The `try`-block body of `get_daily_stats`: build a `DailyStats` from the
aggregation outcome.  Empty result list and raised exception both produce
`DailyStats(date=today)`. -/
def fetchStats (today : String) (db : LedgerReply) : DailyStats :=
  match db with
  | .err _ => zeroStats today
  | .rows [] => zeroStats today
  | .rows (r :: _) =>
      { date := today, total_trades := r.total_trades,
        total_volume_usd := r.total_volume, buy_volume_usd := r.buy_volume,
        sell_volume_usd := r.sell_volume, realized_pnl := r.realized_pnl,
        trade_ids := [] }

/-- Embedding of `TradingLimitsService.get_daily_stats(reload)`.  The Python guard is
`if self._today_stats and not reload: if self._today_stats.date == today:
return self._today_stats`; any fall-through queries the ledger and stores
the result (also the zero fallback) in `_today_stats`. -/
def get_daily_stats (today : String) (st : LimitsState) (db : LedgerReply)
    (reload : Bool) : StatsOutcome :=
  match st.today_stats with
  | some cached =>
      if reload = false ∧ cached.date = today then
        { stats := cached, state := st, queried := false }
      else
        let s := fetchStats today db
        { stats := s, state := { today_stats := some s }, queried := true }
  | none =>
      let s := fetchStats today db
      { stats := s, state := { today_stats := some s }, queried := true }

/-- Cache effect of `TradingLimitsService.record_trade`: on a successful
insert the `_today_stats` cache is set to `None`; if the insert raises, the
exception is swallowed and the cache is left as it was. -/
def record_trade (insertOk : Bool) (st : LimitsState) : LimitsState :=
  if insertOk then { today_stats := none } else st

/-- Embedding of `TradingLimitsService.can_trade(amount_usd, side)`, with the
`DailyStats` snapshot (obtained in the source from `self.get_daily_stats()`)
made an explicit argument.  The `side` argument is accepted and unused,
exactly as in the source.  The Python truthiness test
`if self.limits.max_daily_trades and ...` is false for `None` and for `0`. -/
def can_trade (limits : TradeLimit) (stats : DailyStats) (amount_usd : ℚ)
    (_side : String) : Bool × String :=
  if amount_usd > limits.max_trade_usd then
    (false, "Trade amount $" ++ fmt2 amount_usd ++ " exceeds limit of $" ++
      fmt2 limits.max_trade_usd)
  else if stats.total_volume_usd + amount_usd > limits.max_daily_usd then
    (false, "Daily limit exceeded. Remaining: $" ++
      fmt2 (limits.max_daily_usd - stats.total_volume_usd))
  else
    match limits.max_daily_trades with
    | some m =>
        if m ≠ 0 ∧ stats.total_trades ≥ m then
          (false, "Daily trade limit reached: " ++ toString m ++ " trades")
        else (true, "Trade allowed")
    | none => (true, "Trade allowed")

/-- Embedding of `TradingLimitsService.check_position_limit(current_value,
additional_amount)`.  The guard is the Python truthiness test
`if self.limits.max_position_usd:` — false for `None` and for `0.0`. -/
def check_position_limit (limits : TradeLimit) (current_value : ℚ)
    (additional_amount : ℚ) : Bool × String :=
  match limits.max_position_usd with
  | some m =>
      if m ≠ 0 then
        if current_value + additional_amount > m then
          (false, "Position size $" ++ fmt2 (current_value + additional_amount)
            ++ " exceeds limit of $" ++ fmt2 m)
        else (true, "Position allowed")
      else (true, "Position allowed")
  | none => (true, "Position allowed")

/-! ### Order lifecycle (`app/models/orders.py`, `app/services/order_service.py`) -/

/-- The `OrderStatus` enumeration of `app/models/orders.py`. -/
inductive OrderStatus where
  | PENDING
  | OPEN
  | FILLED
  | PARTIALLY_FILLED
  | CANCELLED
  | EXPIRED
  | FAILED
deriving DecidableEq

/-- The `OrderRequest` pydantic model.  `side` and `order_type` are embedded as
their string values; `created_at`-style fields do not exist on the request. -/
structure OrderRequest where
  token_id : String
  condition_id : Option String
  side : String
  amount : ℚ
  price : Option ℚ
  order_type : String
  nonce : Option String
deriving DecidableEq

/-- The pydantic field validation of `OrderRequest`:
`amount: Field(..., gt=0)` and `price: Field(None, ge=0, le=1)`.
It runs when the request model is constructed at the route boundary,
i.e. before `OrderService.create_order` makes any external call.
No constraint ties `price` presence to `order_type`. -/
def order_request_valid (r : OrderRequest) : Bool :=
  decide (0 < r.amount) &&
    (match r.price with
     | none => true
     | some p => decide (0 ≤ p) && decide (p ≤ 1))

/-- The reply dictionary of `polymarket_client.place_order`: its `success`
flag and the optional `response.hash` that `create_order` reads. -/
structure PlaceReply where
  success : Bool
  hash : Option String
deriving DecidableEq

/-- A stored order document, with the fields of the `order_data` dict built
in `OrderService.create_order` (wall-clock timestamps and the raw `response`
payload omitted: no claim under study reads them). -/
structure OrderRecord where
  order_id : String
  transaction_hash : Option String
  token_id : String
  side : String
  amount : ℚ
  price : Option ℚ
  filled_amount : ℚ
  status : OrderStatus
  nonce : Option String
deriving DecidableEq

/-- The `order_data` record built inside `OrderService.create_order`. -/
def mkOrderRecord (req : OrderRequest) (oid : String) (r : PlaceReply)
    (status : OrderStatus) : OrderRecord :=
  { order_id := oid, transaction_hash := r.hash, token_id := req.token_id,
    side := req.side, amount := req.amount, price := req.price,
    filled_amount := 0, status := status, nonce := req.nonce }

/-- The dictionary returned by `OrderService.create_order`: on the normal
path it has keys `success`, `order_id`, `status`, `result`; on the exception
path only `success` and `error`.  Absent keys are `none`. -/
structure CreateResult where
  success : Bool
  order_id : Option String
  status : Option OrderStatus
  error : Option String
deriving DecidableEq

/-- Embedding of `OrderService.create_order`.  The generated `uuid.uuid4()` is the `oid`
argument; the awaited `polymarket_client.place_order` call is the `place`
argument (`Except.error` embeds a raised exception, caught by the service's
`try/except`); the Mongo orders collection is the `db` list and `save_order`
appends to it.  Note the `except` branch returns before any `save_order`. -/
def create_order (req : OrderRequest) (oid : String)
    (place : Except String PlaceReply) (db : List OrderRecord) :
    CreateResult × List OrderRecord :=
  match place with
  | .ok r =>
      let status := if r.success then OrderStatus.OPEN else OrderStatus.FAILED
      ({ success := r.success, order_id := some oid, status := some status,
         error := none },
       db ++ [mkOrderRecord req oid r status])
  | .error e =>
      ({ success := false, order_id := none, status := none, error := some e },
       db)

/-- Embedding of `get_order` in `app/database.py`: a `find_one` on the stored order id. -/
def get_order (oid : String) (db : List OrderRecord) : Option OrderRecord :=
  db.find? (fun o => o.order_id == oid)

/-- The reply dictionary of `polymarket_client.cancel_order`, also the shape
`OrderService.cancel_order` itself returns. -/
structure CancelReply where
  success : Bool
  error : Option String
deriving DecidableEq

/-- Embedding of `update_order` in `app/database.py`, restricted to the `status` field:
an `update_one` on the stored order id with a set of the new status;
it updates the first matching document. -/
def update_status (oid : String) (new : OrderStatus) :
    List OrderRecord → List OrderRecord
  | [] => []
  | o :: rest =>
      if o.order_id == oid then { o with status := new } :: rest
      else o :: update_status oid new rest

/-- Embedding of `OrderService.cancel_order`.  The awaited external cancel is the
`cancel` argument.  The source consults only existence of the stored order:
on external `success` it sets the status to `CANCELLED` unconditionally —
there is no inspection of the current (possibly terminal) status. -/
def cancel_order (oid : String) (db : List OrderRecord)
    (cancel : Except String CancelReply) : CancelReply × List OrderRecord :=
  match get_order oid db with
  | none => ({ success := false, error := some "Order not found" }, db)
  | some _ =>
      match cancel with
      | .error e => ({ success := false, error := some e }, db)
      | .ok r =>
          if r.success then (r, update_status oid OrderStatus.CANCELLED db)
          else (r, db)

/-! ### Price alerts (`PriceAlertService`, `app/services/advanced.py`) -/

/-- One alert dictionary as built by `PriceAlertService.create_alert`
(wall-clock `created_at`/`triggered_at` and `webhook_url` omitted: the
webhook is fire-and-forget and no claim reads the timestamps). -/
structure Alert where
  alert_id : String
  token_id : String
  side : String
  condition : String
  threshold : ℚ
  active : Bool
  triggered : Bool
  trigger_price : Option ℚ
deriving DecidableEq

/-- The per-alert guard and condition test in
`PriceAlertService.check_alerts`: already-triggered or inactive alerts are
skipped; `above` fires on `current_price >= threshold`, `below` on
`current_price <= threshold`; `crosses_above`/`crosses_below` never fire. -/
def shouldTrigger (price : ℚ) (a : Alert) : Bool :=
  if a.triggered || !a.active then false
  else if a.condition == "above" then decide (price ≥ a.threshold)
  else if a.condition == "below" then decide (price ≤ a.threshold)
  else false

/-- The in-place mutation performed when an alert fires:
`triggered = True`, `trigger_price = current_price`. -/
def fireAlert (price : ℚ) (a : Alert) : Alert :=
  { a with triggered := true, trigger_price := some price }

/-- Embedding of `PriceAlertService.check_alerts(current_price, token_id)` on one token's
bucket `self.active_alerts[token_id]`: returns the mutated bucket and the
list of alerts fired by this call, in iteration order. -/
def check_alerts (price : ℚ) : List Alert → List Alert × List Alert
  | [] => ([], [])
  | a :: rest =>
      let next := check_alerts price rest
      if shouldTrigger price a then
        (fireAlert price a :: next.1, fireAlert price a :: next.2)
      else
        (a :: next.1, next.2)

/-- A sequence of `check_alerts` calls on the same token bucket, one per
observed price: final bucket state and the per-call triggered lists. -/
def run_alerts : List ℚ → List Alert → List Alert × List (List Alert)
  | [], st => (st, [])
  | p :: ps, st =>
      ((run_alerts ps (check_alerts p st).1).1,
       (check_alerts p st).2 :: (run_alerts ps (check_alerts p st).1).2)

/-- Number of not-yet-triggered alerts carrying a given `alert_id`. -/
def untrig_count (id : String) (st : List Alert) : ℕ :=
  st.countP (fun a => a.alert_id == id && a.triggered == false)

/-- Number of occurrences of a given `alert_id` in a triggered list. -/
def trig_hits (id : String) (l : List Alert) : ℕ :=
  l.countP (fun a => a.alert_id == id)

/-! ### Concrete scenario data -/

/-- Limits of spec Scenarios A–D: `max_trade_usd=100, max_daily_usd=500,
max_daily_trades=3`, no position limit. -/
def limitsA : TradeLimit :=
  { max_trade_usd := 100, max_daily_usd := 500, max_position_usd := none,
    max_daily_trades := some 3 }

/-- A day with every limit already blown: volume 10000, 50 trades. -/
def statsBusy : DailyStats :=
  { date := "2026-10-12", total_trades := 50, total_volume_usd := 10000,
    buy_volume_usd := 10000, sell_volume_usd := 0, realized_pnl := 0,
    trade_ids := [] }

/-- Scenario D: fresh day, no prior trades. -/
def statsFresh : DailyStats := zeroStats "2026-10-12"

/-- Scenario B usage: `total_volume_usd=450` (and a large trade count, so
that the daily-trade check would also fail if it were consulted). -/
def statsB : DailyStats :=
  { date := "2026-10-12", total_trades := 50, total_volume_usd := 450,
    buy_volume_usd := 450, sell_volume_usd := 0, realized_pnl := 0,
    trade_ids := [] }

/-- Usage already past the daily cap: `total_volume_usd=600 > 500`. -/
def statsOver : DailyStats :=
  { date := "2026-10-12", total_trades := 2, total_volume_usd := 600,
    buy_volume_usd := 600, sell_volume_usd := 0, realized_pnl := 0,
    trade_ids := [] }

/-- Limits with a large per-trade cap, so that only the daily-volume check
can reject: used against `statsOver`. -/
def limitsWide : TradeLimit :=
  { max_trade_usd := 1000, max_daily_usd := 500, max_position_usd := none,
    max_daily_trades := none }

/-- A position-limit configuration of exactly `0.0`. -/
def limitsPosZero : TradeLimit :=
  { max_trade_usd := 100, max_daily_usd := 500, max_position_usd := some 0,
    max_daily_trades := none }

/-- A GTC order request with a positive amount and boundary price `0`. -/
def reqPrice0 : OrderRequest :=
  { token_id := "tok", condition_id := none, side := "BUY", amount := 10,
    price := some 0, order_type := "GTC", nonce := none }

/-- A GTC order request with boundary price `1`. -/
def reqPrice1 : OrderRequest :=
  { token_id := "tok", condition_id := none, side := "BUY", amount := 10,
    price := some 1, order_type := "GTC", nonce := none }

/-- The request used in the Scenario E run of `create_order`. -/
def reqE : OrderRequest :=
  { token_id := "tok", condition_id := none, side := "BUY", amount := 10,
    price := some (1/2), order_type := "GTC", nonce := none }

/-- A stored order already in the terminal status `FILLED`. -/
def filledRec : OrderRecord :=
  { order_id := "o1", transaction_hash := some "0xabc", token_id := "tok",
    side := "BUY", amount := 10, price := some (1/2), filled_amount := 10,
    status := OrderStatus.FILLED, nonce := none }

/-- Scenario F alert: `condition="above", threshold=0.70`, armed. -/
def alertF : Alert :=
  { alert_id := "a1", token_id := "tok", side := "yes", condition := "above",
    threshold := 7/10, active := true, triggered := false, trigger_price := none }

/-! ## Helper lemmas -/

lemma fmt2_of_round (q : ℚ) (c : ℤ) (h : round (q * 100) = c) :
    fmt2 q = (if c < 0 then "-" else "") ++ toString (c.natAbs / 100) ++ "." ++
      (if c.natAbs % 100 < 10 then "0" else "") ++ toString (c.natAbs % 100) := by
  unfold fmt2
  rw [h]

lemma fmt2_150 : fmt2 150 = "150.00" := by
  rw [fmt2_of_round 150 15000 (by norm_num [round_eq])]
  decide

lemma fmt2_100 : fmt2 100 = "100.00" := by
  rw [fmt2_of_round 100 10000 (by norm_num [round_eq])]
  decide

lemma fmt2_50 : fmt2 50 = "50.00" := by
  rw [fmt2_of_round 50 5000 (by norm_num [round_eq])]
  decide

lemma fmt2_neg100 : fmt2 (-100) = "-100.00" := by
  rw [fmt2_of_round (-100) (-10000) (by norm_num [round_eq])]
  decide

/-- Branch lemma: the per-trade ceiling check rejects first. -/
lemma can_trade_reject_amount (L : TradeLimit) (S : DailyStats) (a : ℚ)
    (side : String) (h : a > L.max_trade_usd) :
    can_trade L S a side =
      (false, "Trade amount $" ++ fmt2 a ++ " exceeds limit of $" ++
        fmt2 L.max_trade_usd) := by
  unfold can_trade
  rw [if_pos h]

/-- Branch lemma: the daily-volume check rejects second. -/
lemma can_trade_reject_daily (L : TradeLimit) (S : DailyStats) (a : ℚ)
    (side : String) (h1 : ¬ a > L.max_trade_usd)
    (h2 : S.total_volume_usd + a > L.max_daily_usd) :
    can_trade L S a side =
      (false, "Daily limit exceeded. Remaining: $" ++
        fmt2 (L.max_daily_usd - S.total_volume_usd)) := by
  unfold can_trade
  rw [if_neg h1, if_pos h2]

/-- Branch lemma: all three checks pass. -/
lemma can_trade_allow (L : TradeLimit) (S : DailyStats) (a : ℚ)
    (side : String) (h1 : ¬ a > L.max_trade_usd)
    (h2 : ¬ S.total_volume_usd + a > L.max_daily_usd)
    (h3 : ∀ m, L.max_daily_trades = some m → ¬(m ≠ 0 ∧ S.total_trades ≥ m)) :
    can_trade L S a side = (true, "Trade allowed") := by
  unfold can_trade
  rw [if_neg h1, if_neg h2]
  cases hm : L.max_daily_trades with
  | none => rfl
  | some m => exact if_neg (h3 m hm)

/-! ## Claims -/

/-- C3: `can_trade` evaluates its checks in the fixed order per-trade
ceiling, daily-volume headroom, daily trade count, and returns the rejection
reason of the first failing check only (here: when the per-trade ceiling
fails, the returned reason is the ceiling reason whatever the state of the
other checks — `statsBusy` breaches them all); with `max_trade_usd=100` a
request of 150 yields the `$100.00` ceiling reason, and when every check
passes the result is `(true, "Trade allowed")`. -/
theorem can_trade_first_check_wins (L : TradeLimit) (S : DailyStats) (a : ℚ)
    (side : String) (h : a > L.max_trade_usd) :
    can_trade L S a side =
      (false, "Trade amount $" ++ fmt2 a ++ " exceeds limit of $" ++
        fmt2 L.max_trade_usd)
    ∧ can_trade limitsA statsBusy 150 "BUY" =
        (false, "Trade amount $150.00 exceeds limit of $100.00")
    ∧ can_trade limitsA statsB 60 "BUY" =
        (false, "Daily limit exceeded. Remaining: $50.00")
    ∧ can_trade limitsA statsFresh 80 "BUY" = (true, "Trade allowed") := by
  refine ⟨can_trade_reject_amount L S a side h, ?_, ?_, ?_⟩
  · rw [can_trade_reject_amount limitsA statsBusy 150 "BUY"
      (by norm_num [limitsA])]
    have hA : limitsA.max_trade_usd = 100 := rfl
    rw [hA, fmt2_150, fmt2_100]
    decide
  · rw [can_trade_reject_daily limitsA statsB 60 "BUY"
      (by norm_num [limitsA]) (by norm_num [limitsA, statsB])]
    have hB : limitsA.max_daily_usd - statsB.total_volume_usd = 50 := by
      norm_num [limitsA, statsB]
    rw [hB, fmt2_50]
    decide
  · refine can_trade_allow limitsA statsFresh 80 "BUY"
      (by norm_num [limitsA]) (by norm_num [limitsA, statsFresh, zeroStats]) ?_
    intro m hm hbad
    have hm3 : m = 3 :=
      (Option.some.inj (show (some 3 : Option ℕ) = some m from hm)).symm
    have hz : statsFresh.total_trades = 0 := rfl
    omega

/-- C3 witness: instantiation at `limitsA`, `statsFresh`, amount 150. -/
theorem can_trade_first_check_wins_witness :
    can_trade limitsA statsFresh 150 "BUY" =
      (false, "Trade amount $" ++ fmt2 150 ++ " exceeds limit of $" ++
        fmt2 limitsA.max_trade_usd)
    ∧ can_trade limitsA statsBusy 150 "BUY" =
        (false, "Trade amount $150.00 exceeds limit of $100.00")
    ∧ can_trade limitsA statsB 60 "BUY" =
        (false, "Daily limit exceeded. Remaining: $50.00")
    ∧ can_trade limitsA statsFresh 80 "BUY" = (true, "Trade allowed") :=
  can_trade_first_check_wins limitsA statsFresh 150 "BUY"
    (by norm_num [limitsA])

/-- C4: for a fixed usage snapshot, a `can_trade` rejection that is due to
one of the two size-dependent checks (per-trade ceiling or daily volume —
i.e. not due to `max_daily_trades`) persists for every larger amount. -/
theorem can_trade_monotone_in_amount (L : TradeLimit) (S : DailyStats)
    (a a' : ℚ) (side side' : String)
    (_hfail : (can_trade L S a side).1 = false)
    (hsize : a > L.max_trade_usd ∨ S.total_volume_usd + a > L.max_daily_usd)
    (hlt : a < a') :
    (can_trade L S a' side').1 = false := by
  rcases hsize with h | h
  · rw [can_trade_reject_amount L S a' side' (lt_trans h hlt)]
  · by_cases h1 : a' > L.max_trade_usd
    · rw [can_trade_reject_amount L S a' side' h1]
    · rw [can_trade_reject_daily L S a' side' h1 (lt_trans h (by linarith))]

/-- C4 witness: 150 rejected by the ceiling, hence 200 rejected too. -/
theorem can_trade_monotone_in_amount_witness :
    (can_trade limitsA statsFresh 200 "SELL").1 = false :=
  can_trade_monotone_in_amount limitsA statsFresh 150 200 "BUY" "SELL"
    (by rw [can_trade_reject_amount limitsA statsFresh 150 "BUY"
      (by norm_num [limitsA])])
    (Or.inl (by norm_num [limitsA]))
    (by norm_num)

/-- C6 (amended): when the daily-volume check fails, the rejection reason
states the remaining headroom `max_daily_usd - total_volume_usd` formatted
to two decimals with **no clamping at 0** (a negative headroom is displayed
negative); with `max_daily_usd=500` and usage 450, a request of 60 yields
"... Remaining: $50.00". -/
theorem can_trade_remaining_headroom (L : TradeLimit) (S : DailyStats)
    (a : ℚ) (side : String) (h1 : ¬ a > L.max_trade_usd)
    (h2 : S.total_volume_usd + a > L.max_daily_usd) :
    can_trade L S a side =
      (false, "Daily limit exceeded. Remaining: $" ++
        fmt2 (L.max_daily_usd - S.total_volume_usd))
    ∧ can_trade limitsA statsB 60 "SELL" =
        (false, "Daily limit exceeded. Remaining: $50.00") := by
  refine ⟨can_trade_reject_daily L S a side h1 h2, ?_⟩
  rw [can_trade_reject_daily limitsA statsB 60 "SELL"
    (by norm_num [limitsA]) (by norm_num [limitsA, statsB])]
  have hB : limitsA.max_daily_usd - statsB.total_volume_usd = 50 := by
    norm_num [limitsA, statsB]
  rw [hB, fmt2_50]
  decide

/-- C6 witness: instantiation at Scenario B. -/
theorem can_trade_remaining_headroom_witness :
    can_trade limitsA statsB 60 "BUY" =
      (false, "Daily limit exceeded. Remaining: $" ++
        fmt2 (limitsA.max_daily_usd - statsB.total_volume_usd))
    ∧ can_trade limitsA statsB 60 "SELL" =
        (false, "Daily limit exceeded. Remaining: $50.00") :=
  can_trade_remaining_headroom limitsA statsB 60 "BUY"
    (by norm_num [limitsA]) (by norm_num [limitsA, statsB])

/-- C6 counterexample: with usage 600 against a daily cap of 500, the
displayed remaining headroom is the negative `$-100.00`, not the `$0.00`
that display-clamping would produce. -/
theorem can_trade_negative_remaining :
    can_trade limitsWide statsOver 10 "BUY" =
      (false, "Daily limit exceeded. Remaining: $-100.00")
    ∧ "Daily limit exceeded. Remaining: $-100.00" ≠
        "Daily limit exceeded. Remaining: $0.00" := by
  constructor
  · rw [can_trade_reject_daily limitsWide statsOver 10 "BUY"
      (by norm_num [limitsWide]) (by norm_num [limitsWide, statsOver])]
    have hC : limitsWide.max_daily_usd - statsOver.total_volume_usd = -100 := by
      norm_num [limitsWide, statsOver]
    rw [hC, fmt2_neg100]
    decide
  · decide

/-- C10: `check_position_limit` allows every position when
`max_position_usd` is `None`, and equally when it is configured as exactly
`0`: the Python guard `if self.limits.max_position_usd:` tests truthiness,
and `0.0` is falsy, so a zero limit means "no limit". -/
theorem check_position_limit_zero_unlimited (L : TradeLimit)
    (cv extra : ℚ)
    (h : L.max_position_usd = none ∨ L.max_position_usd = some 0) :
    check_position_limit L cv extra = (true, "Position allowed") := by
  rcases h with h | h <;> simp [check_position_limit, h]

/-- C10 witness: a `0.0` position limit admits a huge position. -/
theorem check_position_limit_zero_unlimited_witness :
    check_position_limit limitsPosZero 1000000 500 =
      (true, "Position allowed") :=
  check_position_limit_zero_unlimited limitsPosZero 1000000 500 (Or.inr rfl)

/-- Evaluation lemma: `get_daily_stats` with an empty cache. -/
lemma get_daily_stats_none (today : String) (db : LedgerReply)
    (reload : Bool) :
    get_daily_stats today { today_stats := none } db reload =
      { stats := fetchStats today db,
        state := { today_stats := some (fetchStats today db) },
        queried := true } := rfl

/-- Evaluation lemma: `get_daily_stats` with a populated cache. -/
lemma get_daily_stats_some (today : String) (c : DailyStats)
    (db : LedgerReply) (reload : Bool) :
    get_daily_stats today { today_stats := some c } db reload =
      if reload = false ∧ c.date = today then
        { stats := c, state := { today_stats := some c }, queried := false }
      else
        { stats := fetchStats today db,
          state := { today_stats := some (fetchStats today db) },
          queried := true } := rfl

/-- C5: when the ledger aggregation raises and the call actually reaches the
ledger (no valid same-day cache hit), `get_daily_stats` swallows the error
and returns a snapshot for today's date with every counter zero. -/
theorem get_daily_stats_fail_open (today e : String) (st : LimitsState)
    (reload : Bool)
    (hmiss : ∀ c, st.today_stats = some c → reload = true ∨ c.date ≠ today) :
    (get_daily_stats today st (.err e) reload).stats =
      { date := today, total_trades := 0, total_volume_usd := 0,
        buy_volume_usd := 0, sell_volume_usd := 0, realized_pnl := 0,
        trade_ids := [] } := by
  obtain ⟨ts⟩ := st
  cases ts with
  | none =>
      rw [get_daily_stats_none]
      rfl
  | some c =>
      have hcond : ¬(reload = false ∧ c.date = today) := by
        rcases hmiss c rfl with h | h
        · rintro ⟨h1, _⟩
          rw [h] at h1
          exact Bool.noConfusion h1
        · rintro ⟨_, h2⟩
          exact h h2
      rw [get_daily_stats_some, if_neg hcond]
      rfl

/-- C5 witness: empty cache, failing ledger. -/
theorem get_daily_stats_fail_open_witness :
    (get_daily_stats "2026-10-12" { today_stats := none }
        (.err "timeout") false).stats =
      { date := "2026-10-12", total_trades := 0, total_volume_usd := 0,
        buy_volume_usd := 0, sell_volume_usd := 0, realized_pnl := 0,
        trade_ids := [] } :=
  get_daily_stats_fail_open "2026-10-12" "timeout" { today_stats := none }
    false (fun _ h => Option.noConfusion h)

/-- C9: the zero snapshot produced by a failing ledger query is cached like
a successful one: it becomes the `_today_stats` cache; a later same-day call
with `reload=false` returns exactly the cached zeros without querying the
ledger and leaves the cache unchanged; a `reload=true` call, a call on a
different day, or a successful `record_trade` (which clears the cache) make
the next call query the ledger again. -/
theorem fail_open_snapshot_cached (today tomorrow e : String)
    (st : LimitsState) (reload : Bool) (db2 db3 db4 : LedgerReply)
    (hmiss : ∀ c, st.today_stats = some c → reload = true ∨ c.date ≠ today)
    (hday : tomorrow ≠ today) :
    (get_daily_stats today st (.err e) reload).state =
      { today_stats := some (zeroStats today) }
    ∧ get_daily_stats today { today_stats := some (zeroStats today) }
        db2 false =
      { stats := zeroStats today,
        state := { today_stats := some (zeroStats today) }, queried := false }
    ∧ (get_daily_stats today { today_stats := some (zeroStats today) }
        db3 true).queried = true
    ∧ (get_daily_stats tomorrow { today_stats := some (zeroStats today) }
        db4 false).queried = true
    ∧ record_trade true { today_stats := some (zeroStats today) } =
        { today_stats := none }
    ∧ (get_daily_stats today { today_stats := none } db4 false).queried =
        true := by
  refine ⟨?_, ?_, ?_, ?_, rfl, rfl⟩
  · obtain ⟨ts⟩ := st
    cases ts with
    | none =>
        rw [get_daily_stats_none]
        rfl
    | some c =>
        have hcond : ¬(reload = false ∧ c.date = today) := by
          rcases hmiss c rfl with h | h
          · rintro ⟨h1, _⟩
            rw [h] at h1
            exact Bool.noConfusion h1
          · rintro ⟨_, h2⟩
            exact h h2
        rw [get_daily_stats_some, if_neg hcond]
        rfl
  · rw [get_daily_stats_some, if_pos ⟨rfl, rfl⟩]
  · rw [get_daily_stats_some,
      if_neg (fun hc => Bool.noConfusion hc.1)]
  · rw [get_daily_stats_some,
      if_neg (fun hc => hday (show tomorrow = today from hc.2.symm))]

/-- C9 witness: concrete instantiation across two days. -/
theorem fail_open_snapshot_cached_witness :
    (get_daily_stats "2026-10-12" { today_stats := none }
        (.err "down") false).state =
      { today_stats := some (zeroStats "2026-10-12") }
    ∧ get_daily_stats "2026-10-12"
        { today_stats := some (zeroStats "2026-10-12") }
        (.rows [{ total_trades := 4, total_volume := 40, buy_volume := 40,
                  sell_volume := 0, realized_pnl := 0 }]) false =
      { stats := zeroStats "2026-10-12",
        state := { today_stats := some (zeroStats "2026-10-12") },
        queried := false }
    ∧ (get_daily_stats "2026-10-12"
        { today_stats := some (zeroStats "2026-10-12") }
        (.rows []) true).queried = true
    ∧ (get_daily_stats "2026-10-13"
        { today_stats := some (zeroStats "2026-10-12") }
        (.err "x") false).queried = true
    ∧ record_trade true { today_stats := some (zeroStats "2026-10-12") } =
        { today_stats := none }
    ∧ (get_daily_stats "2026-10-12" { today_stats := none }
        (.err "x") false).queried = true :=
  fail_open_snapshot_cached "2026-10-12" "2026-10-13" "down"
    { today_stats := none } false
    (.rows [{ total_trades := 4, total_volume := 40, buy_volume := 40,
              sell_volume := 0, realized_pnl := 0 }]) (.rows []) (.err "x")
    (fun _ h => Option.noConfusion h) (by decide)

/-- Looking an order up in a store that does not contain it, after one
record is appended, finds exactly that record (or nothing). -/
lemma get_order_append_of_none (oid : String) (db : List OrderRecord)
    (x : OrderRecord) (h : get_order oid db = none) :
    get_order oid (db ++ [x]) =
      if x.order_id == oid then some x else none := by
  unfold get_order at h ⊢
  rw [List.find?_append, h, Option.none_or]
  cases hpx : x.order_id == oid with
  | true =>
      have hf : List.find? (fun o => o.order_id == oid) [x] = some x :=
        List.find?_cons_of_pos _ hpx
      rw [hf]
      simp
  | false =>
      have hf : List.find? (fun o => o.order_id == oid) [x] =
          List.find? (fun o => o.order_id == oid) [] :=
        List.find?_cons_of_neg _ (by simp [hpx])
      rw [hf]
      simp

/-- An order id absent from the store occurs zero times in it. -/
lemma countP_zero_of_get_order_none (oid : String) (db : List OrderRecord)
    (h : get_order oid db = none) :
    db.countP (fun o => o.order_id == oid) = 0 := by
  rw [List.countP_eq_zero]
  intro a ha
  exact List.find?_eq_none.mp h a ha

/-- Lemma: `update_status` rewrites exactly the looked-up record's status. -/
lemma get_order_update_status (oid : String) (s : OrderStatus)
    (db : List OrderRecord) (o : OrderRecord)
    (h : get_order oid db = some o) :
    get_order oid (update_status oid s db) =
      some { o with status := s } := by
  induction db with
  | nil => simp [get_order] at h
  | cons a rest ih =>
      unfold get_order at h ⊢
      cases hpx : a.order_id == oid with
      | true =>
          have hf : List.find? (fun o => o.order_id == oid) (a :: rest) =
              some a := List.find?_cons_of_pos _ hpx
          rw [hf] at h
          obtain rfl : a = o := Option.some.inj h
          unfold update_status
          rw [if_pos hpx]
          exact List.find?_cons_of_pos _
            (show ({ a with status := s }.order_id == oid) = true from hpx)
      | false =>
          have hf : List.find? (fun o => o.order_id == oid) (a :: rest) =
              List.find? (fun o => o.order_id == oid) rest :=
            List.find?_cons_of_neg _ (by simp [hpx])
          rw [hf] at h
          unfold update_status
          rw [if_neg (by simp [hpx])]
          have hf2 : List.find? (fun o => o.order_id == oid)
              (a :: update_status oid s rest) =
              List.find? (fun o => o.order_id == oid)
                (update_status oid s rest) :=
            List.find?_cons_of_neg _ (by simp [hpx])
          rw [hf2]
          exact ih h

/-- C7 (amended): the request-model validation, which runs before any
external call, accepts a request exactly when its amount is strictly
positive and its price — when present — lies in the **inclusive** range
`0 ≤ price ≤ 1`; the boundary prices 0 and 1 are accepted, and no order
type forces a price to be present. -/
theorem order_request_price_bounds_inclusive (r : OrderRequest) :
    order_request_valid r = true ↔
      (0 < r.amount ∧ ∀ p, r.price = some p → 0 ≤ p ∧ p ≤ 1) := by
  unfold order_request_valid
  cases hp : r.price with
  | none => simp
  | some p => simp [decide_eq_true_iff, and_assoc]

/-- C7 counterexample: a GTC request with price exactly 0 and one with
price exactly 1 both pass validation, though the claim requires
`0 < price < 1` for price-carrying orders. -/
theorem order_request_boundary_prices_accepted :
    order_request_valid reqPrice0 = true ∧
      order_request_valid reqPrice1 = true := by
  constructor
  · norm_num [order_request_valid, reqPrice0]
  · norm_num [order_request_valid, reqPrice1]

/-- C1 (amended): when the trading collaborator returns a reply — success
or failure — `create_order` stores exactly one record retrievable by the
generated `order_id`, with status `OPEN` on success and `FAILED` on
failure, and returns that id; but when the collaborator **throws**, the
exception is caught and `success=false` with the captured message is
returned, and **no** record is stored and no `order_id` is returned. -/
theorem create_order_persistence (req : OrderRequest) (oid : String)
    (r : PlaceReply) (e : String) (db : List OrderRecord)
    (hfresh : get_order oid db = none) :
    get_order oid (create_order req oid (Except.ok r) db).2 =
      some (mkOrderRecord req oid r
        (if r.success then OrderStatus.OPEN else OrderStatus.FAILED))
    ∧ (create_order req oid (Except.ok r) db).2.countP
        (fun o => o.order_id == oid) = 1
    ∧ (create_order req oid (Except.ok r) db).1 =
        { success := r.success, order_id := some oid,
          status := some (if r.success then OrderStatus.OPEN
            else OrderStatus.FAILED), error := none }
    ∧ create_order req oid (Except.error e) db =
        ({ success := false, order_id := none, status := none,
           error := some e }, db) := by
  refine ⟨?_, ?_, rfl, rfl⟩
  · rw [show (create_order req oid (Except.ok r) db).2 =
        db ++ [mkOrderRecord req oid r
          (if r.success then OrderStatus.OPEN else OrderStatus.FAILED)]
      from rfl]
    rw [get_order_append_of_none oid db _ hfresh]
    rw [if_pos (show (mkOrderRecord req oid r _).order_id == oid
      from by simp [mkOrderRecord])]
  · rw [show (create_order req oid (Except.ok r) db).2 =
        db ++ [mkOrderRecord req oid r
          (if r.success then OrderStatus.OPEN else OrderStatus.FAILED)]
      from rfl]
    rw [List.countP_append, countP_zero_of_get_order_none oid db hfresh]
    simp [mkOrderRecord]

/-- C1 witness: a fresh id against an empty store, failure reply. -/
theorem create_order_persistence_witness :
    get_order "o1" (create_order reqE "o1"
        (Except.ok { success := false, hash := none }) []).2 =
      some (mkOrderRecord reqE "o1" { success := false, hash := none }
        (if ({ success := false, hash := none } : PlaceReply).success then
          OrderStatus.OPEN else OrderStatus.FAILED))
    ∧ (create_order reqE "o1"
        (Except.ok { success := false, hash := none }) []).2.countP
        (fun o => o.order_id == "o1") = 1
    ∧ (create_order reqE "o1"
        (Except.ok { success := false, hash := none }) []).1 =
        { success := ({ success := false, hash := none } : PlaceReply).success,
          order_id := some "o1",
          status := some (if ({ success := false, hash := none } :
              PlaceReply).success then OrderStatus.OPEN
            else OrderStatus.FAILED), error := none }
    ∧ create_order reqE "o1" (Except.error "timeout") [] =
        ({ success := false, order_id := none, status := none,
           error := some "timeout" }, []) :=
  create_order_persistence reqE "o1" { success := false, hash := none }
    "timeout" [] rfl

/-- C1 counterexample: Scenario E run — the collaborator throws, the result
is `success=false` with the message, yet the store is untouched and
`get_order` on the locally generated id returns nothing (the claim requires
a stored `FAILED` record retrievable by that id). -/
theorem create_order_exception_no_record :
    (create_order reqE "o1" (Except.error "Request timed out") []).1 =
      { success := false, order_id := none, status := none,
        error := some "Request timed out" }
    ∧ (create_order reqE "o1" (Except.error "Request timed out") []).2 = []
    ∧ get_order "o1"
        (create_order reqE "o1" (Except.error "Request timed out") []).2 =
        none :=
  ⟨rfl, rfl, rfl⟩

/-- C2 (amended): `cancel_order` performs no terminal-state check.  For an
existing stored order: if the external cancel throws, the collaborator
error is returned and the store is untouched; if it replies, the reply is
returned as-is (no success-no-op translation) and on `success=true` the
stored status is overwritten to `CANCELLED` unconditionally — whatever the
prior status, terminal or not. -/
theorem cancel_order_no_terminal_guard (oid : String)
    (db : List OrderRecord) (o : OrderRecord) (r : CancelReply) (e : String)
    (h : get_order oid db = some o) :
    cancel_order oid db (Except.error e) =
      ({ success := false, error := some e }, db)
    ∧ cancel_order oid db (Except.ok r) =
        (r, if r.success then update_status oid OrderStatus.CANCELLED db
          else db)
    ∧ get_order oid (update_status oid OrderStatus.CANCELLED db) =
        some { o with status := OrderStatus.CANCELLED } := by
  refine ⟨?_, ?_, get_order_update_status oid OrderStatus.CANCELLED db o h⟩
  · unfold cancel_order
    rw [h]
  · unfold cancel_order
    rw [h]
    show (if r.success = true then
        (r, update_status oid OrderStatus.CANCELLED db) else (r, db)) =
      (r, if r.success = true then
        update_status oid OrderStatus.CANCELLED db else db)
    cases hs : r.success with
    | true => simp
    | false => simp

/-- C2 witness: an existing `FILLED` order. -/
theorem cancel_order_no_terminal_guard_witness :
    cancel_order "o1" [filledRec] (Except.error "boom") =
      ({ success := false, error := some "boom" }, [filledRec])
    ∧ cancel_order "o1" [filledRec]
        (Except.ok { success := true, error := none }) =
        ({ success := true, error := none },
          if ({ success := true, error := none } : CancelReply).success then
            update_status "o1" OrderStatus.CANCELLED [filledRec]
          else [filledRec])
    ∧ get_order "o1" (update_status "o1" OrderStatus.CANCELLED [filledRec]) =
        some { filledRec with status := OrderStatus.CANCELLED } :=
  cancel_order_no_terminal_guard "o1" [filledRec] filledRec
    { success := true, error := none } "boom" rfl

/-- C2 counterexample: cancelling an order whose stored status is the
terminal `FILLED`, with the external cancel succeeding, changes the stored
status to `CANCELLED` — the claim requires the status to stay unchanged. -/
theorem cancel_order_overwrites_filled :
    get_order "o1" [filledRec] = some filledRec
    ∧ filledRec.status = OrderStatus.FILLED
    ∧ (cancel_order "o1" [filledRec]
        (Except.ok { success := true, error := none })).2 =
        [{ filledRec with status := OrderStatus.CANCELLED }]
    ∧ OrderStatus.CANCELLED ≠ OrderStatus.FILLED :=
  ⟨rfl, rfl, rfl, by decide⟩

/-- A firing alert was not previously triggered. -/
lemma shouldTrigger_not_triggered (p : ℚ) (a : Alert)
    (h : shouldTrigger p a = true) : a.triggered = false := by
  cases hat : a.triggered with
  | false => rfl
  | true =>
      unfold shouldTrigger at h
      rw [hat] at h
      simp at h

lemma untrig_count_cons (id : String) (a : Alert) (l : List Alert) :
    untrig_count id (a :: l) = untrig_count id l +
      (if a.alert_id == id && a.triggered == false then 1 else 0) := by
  unfold untrig_count
  exact List.countP_cons _ a l

lemma trig_hits_cons (id : String) (a : Alert) (l : List Alert) :
    trig_hits id (a :: l) = trig_hits id l +
      (if a.alert_id == id then 1 else 0) := by
  unfold trig_hits
  exact List.countP_cons _ a l

/-- One `check_alerts` call conserves, per alert id, the number of armed
copies plus the number of occurrences in the triggered output. -/
lemma check_alerts_untrig (p : ℚ) (id : String) (st : List Alert) :
    untrig_count id (check_alerts p st).1 +
      trig_hits id (check_alerts p st).2 = untrig_count id st := by
  induction st with
  | nil => rfl
  | cons a rest ih =>
      unfold check_alerts
      cases hs : shouldTrigger p a with
      | true =>
          have htf := shouldTrigger_not_triggered p a hs
          rw [if_pos rfl]
          rw [untrig_count_cons, trig_hits_cons, untrig_count_cons]
          have e1 : ((fireAlert p a).alert_id == id &&
              (fireAlert p a).triggered == false) = false := by
            simp [fireAlert]
          have e2 : ((fireAlert p a).alert_id == id) = (a.alert_id == id) :=
            rfl
          have e3 : (a.alert_id == id && a.triggered == false) =
              (a.alert_id == id) := by
            simp [htf]
          rw [e1, e2, e3]
          simp only [Bool.false_eq_true, if_false]
          omega
      | false =>
          rw [if_neg (fun hc => Bool.noConfusion hc)]
          dsimp only
          rw [untrig_count_cons, untrig_count_cons]
          omega

/-- A whole sequence of `check_alerts` calls conserves, per alert id, the
armed copies plus all triggered occurrences. -/
lemma run_alerts_untrig (ps : List ℚ) (st : List Alert) (id : String) :
    untrig_count id (run_alerts ps st).1 +
      ((run_alerts ps st).2.map (trig_hits id)).sum = untrig_count id st := by
  induction ps generalizing st with
  | nil => simp [run_alerts]
  | cons p ps ih =>
      unfold run_alerts
      simp only [List.map_cons, List.sum_cons]
      have h1 := check_alerts_untrig p id st
      have h2 := ih (check_alerts p st).1
      omega

/-- With pairwise-distinct alert ids, an id has at most one armed copy. -/
lemma untrig_count_le_one (id : String) (st : List Alert)
    (h : (st.map Alert.alert_id).Nodup) : untrig_count id st ≤ 1 := by
  have h1 : untrig_count id st ≤
      st.countP (fun a => a.alert_id == id) := by
    unfold untrig_count
    refine List.countP_mono_left (fun x _ hx => ?_)
    simp only [Bool.and_eq_true] at hx
    exact hx.1
  have h2 : st.countP (fun a => a.alert_id == id) =
      (st.map Alert.alert_id).count id := by
    rw [List.count, List.countP_map]
    rfl
  have h3 := List.nodup_iff_count_le_one.mp h id
  omega

/-- C8: across any sequence of `check_alerts` calls on a token bucket whose
alert ids are pairwise distinct, a given `alert_id` occurs in the returned
triggered lists at most once in total — the `triggered` latch set by the
first firing makes every later call skip the alert; concretely (Scenario F,
`above`/0.70): price 0.65 triggers nothing, price 0.72 then returns the
alert exactly once with `trigger_price=0.72`, and a later price 0.80
returns nothing. -/
theorem check_alerts_one_shot (st : List Alert) (ps : List ℚ) (id : String)
    (h : (st.map Alert.alert_id).Nodup) :
    ((run_alerts ps st).2.map (trig_hits id)).sum ≤ 1
    ∧ check_alerts (13/20) [alertF] = ([alertF], [])
    ∧ check_alerts (18/25) [alertF] =
        ([fireAlert (18/25) alertF], [fireAlert (18/25) alertF])
    ∧ (fireAlert (18/25) alertF).trigger_price = some (18/25)
    ∧ (fireAlert (18/25) alertF).triggered = true
    ∧ check_alerts (4/5) [fireAlert (18/25) alertF] =
        ([fireAlert (18/25) alertF], []) := by
  have hs1 : shouldTrigger (13/20) alertF = false := by
    norm_num [shouldTrigger, alertF]
  have hs2 : shouldTrigger (18/25) alertF = true := by
    norm_num [shouldTrigger, alertF]
  have hs3 : shouldTrigger (4/5) (fireAlert (18/25) alertF) = false := by
    simp [shouldTrigger, fireAlert]
  refine ⟨?_, ?_, ?_, rfl, rfl, ?_⟩
  · have h1 := run_alerts_untrig ps st id
    have h2 := untrig_count_le_one id st h
    omega
  · simp [check_alerts, hs1]
  · simp [check_alerts, hs2]
  · simp [check_alerts, hs3]

/-- C8 witness: Scenario F's bucket and price sequence. -/
theorem check_alerts_one_shot_witness :
    ((run_alerts [13/20, 18/25, 4/5] [alertF]).2.map
        (trig_hits "a1")).sum ≤ 1
    ∧ check_alerts (13/20) [alertF] = ([alertF], [])
    ∧ check_alerts (18/25) [alertF] =
        ([fireAlert (18/25) alertF], [fireAlert (18/25) alertF])
    ∧ (fireAlert (18/25) alertF).trigger_price = some (18/25)
    ∧ (fireAlert (18/25) alertF).triggered = true
    ∧ check_alerts (4/5) [fireAlert (18/25) alertF] =
        ([fireAlert (18/25) alertF], []) :=
  check_alerts_one_shot [alertF] [13/20, 18/25, 4/5] "a1" (by simp)

end PolyClaw
